import Mathlib

/-!
Verification of the tour-detail field reconciliation and normalization engine
of this repository: the coordinate converter and centroid helper
(`src/unnamed/part_012`, a.k.a. `map-utils.ts`), the phone merge logic of the
place-detail page (`src/unnamed/part_005`), the homepage normalizer
(`src/components/tour-detail/detail-info.tsx`), and the infinite-scroll
accumulator (`src/components/tour-list-infinite.tsx` together with the server
actions in `src/unnamed/part_000`).

The embedding is shallow: each TypeScript function is translated into an
executable Lean function over `String` / `List Char` / `ℚ`.  Platform
primitives that the code calls (`parseFloat`, `String.prototype.trim`, the
regex engine restricted to the concrete patterns appearing in the code, and
the WHATWG `URL` constructor) are modelled explicitly below; JavaScript
numbers are idealized as rationals (IEEE-754 rounding, overflow to infinity
and `"Infinity"` literals are outside the model).
-/

namespace Thursday

/-- JavaScript whitespace as used by `String.prototype.trim` and the regex
class `\s`, restricted to the ASCII whitespace characters. -/
def isJsSpace (c : Char) : Bool :=
  c = ' ' ∨ c = '\t' ∨ c = '\n' ∨ c = '\r' ∨ c = '\x0b' ∨ c = '\x0c'

/-- Model of `String.prototype.trim` on character lists. -/
def jsTrimList (s : List Char) : List Char :=
  (((s.dropWhile isJsSpace).reverse).dropWhile isJsSpace).reverse

/-- Model of `String.prototype.trim`. -/
def jsTrim (s : String) : String :=
  String.mk (jsTrimList s.data)

/-- ASCII lower-casing of a single character (non-ASCII characters, in
particular Korean, are fixed points, as under `String.prototype.toLowerCase`
for the strings appearing in this development). -/
def asciiLower (c : Char) : Char :=
  if 'A' ≤ c ∧ c ≤ 'Z' then Char.ofNat (c.toNat + 32) else c

/-- Model of `String.prototype.toLowerCase`. -/
def jsToLower (s : String) : String :=
  String.mk (s.data.map asciiLower)

/-- Numeric value of a decimal digit character. -/
def digitVal (c : Char) : Nat := c.toNat - '0'.toNat

/-- Value of a list of decimal digit characters, most significant first. -/
def digitsToNat (ds : List Char) : Nat :=
  ds.foldl (fun a c => a * 10 + digitVal c) 0

/-- The exponent part accepted after the mantissa by `parseFloat`:
`e`/`E`, an optional sign, and at least one digit; if the digits are
missing the exponent part is not consumed at all. -/
def jsParseExponent (s : List Char) : Option ℤ :=
  match s with
  | c :: t =>
    if c = 'e' ∨ c = 'E' then
      match t with
      | '+' :: u =>
        if (u.takeWhile Char.isDigit) ≠ [] then
          some ((digitsToNat (u.takeWhile Char.isDigit) : ℤ))
        else none
      | '-' :: u =>
        if (u.takeWhile Char.isDigit) ≠ [] then
          some (-(digitsToNat (u.takeWhile Char.isDigit) : ℤ))
        else none
      | u =>
        if (u.takeWhile Char.isDigit) ≠ [] then
          some ((digitsToNat (u.takeWhile Char.isDigit) : ℤ))
        else none
    else none
  | [] => none

/-- Model of the JavaScript `parseFloat` builtin on decimal literals:
leading whitespace is skipped, an optional sign, an integer part, an
optional fraction and an optional exponent are parsed as the longest valid
prefix, and `none` (JavaScript `NaN`) is returned when not even one digit
could be consumed.  The parse is returned in exact decimal scientific form
`(m, e)` standing for `m * 10 ^ e`: the sign and the integer and fraction
digits are folded into the integer mantissa `m`, and the fraction length is
subtracted from the exponent.  This keeps the parser inside kernel-reducible
integer arithmetic; `jsParseFloat` below assembles the rational value. -/
def jsParseFloatParts (s : String) : Option (Int × Int) :=
  let s1 := s.data.dropWhile isJsSpace
  let sgn : Int := match s1 with
    | '-' :: _ => -1
    | _ => 1
  let s2 : List Char := match s1 with
    | '+' :: t => t
    | '-' :: t => t
    | _ => s1
  let intDs := s2.takeWhile Char.isDigit
  let s3 := s2.drop intDs.length
  let fracDs : List Char := match s3 with
    | '.' :: t => t.takeWhile Char.isDigit
    | _ => []
  let s4 : List Char := match s3 with
    | '.' :: t => t.drop (t.takeWhile Char.isDigit).length
    | _ => s3
  if intDs = [] ∧ fracDs = [] then none
  else
    let mant : Int := sgn * ((digitsToNat intDs * 10 ^ fracDs.length + digitsToNat fracDs : Nat) : Int)
    let e : Int := (jsParseExponent s4).getD 0 - fracDs.length
    some (mant, e)

/-- The rational value `m * 10 ^ e` denoted by a parse in decimal scientific
form. -/
def partsVal (p : Int × Int) : ℚ := (p.1 : ℚ) * (10 : ℚ) ^ p.2

/-- Model of `parseFloat`, as an idealized rational (`none` is `NaN`). -/
def jsParseFloat (s : String) : Option ℚ :=
  (jsParseFloatParts s).map partsVal

/-- Embedding of `convertKatecToWgs84` from `src/unnamed/part_012`
(`map-utils.ts`): parse the raw coordinate with `parseFloat`; `NaN` becomes
the sentinel `0`; a magnitude of at least 1000 is treated as a fixed-point
encoded coordinate and divided by 10,000,000; anything else is returned
unchanged. -/
def convertKatecToWgs84 (katecCoord : String) : ℚ :=
  match jsParseFloat katecCoord with
  | none => 0
  | some num =>
    if num ≥ 1000 ∨ num ≤ -1000 then num / 10000000
    else num

/-- The fields of a listing item (`TourItem`) consumed by the functions
verified here; remaining upstream fields are irrelevant to these claims. -/
structure TourItem where
  contentid : String
  contenttypeid : String
  title : String
  modifiedtime : String
  mapx : String
  mapy : String
deriving DecidableEq

/-- A decimal-degree map centre. -/
structure MapCenter where
  lng : ℚ
  lat : ℚ
deriving DecidableEq

/-- The filter applied by `calculateCenter` (`src/unnamed/part_012`): an item
survives iff both raw coordinate strings are truthy (non-empty) and distinct
from the literal string `"0"`. -/
def validCoordFilter (tours : List TourItem) : List TourItem :=
  tours.filter fun t => t.mapx ≠ "" ∧ t.mapy ≠ "" ∧ t.mapx ≠ "0" ∧ t.mapy ≠ "0"

/-- Embedding of `calculateCenter` from `src/unnamed/part_012`: filter, then
return `none` on an empty remainder, else the arithmetic mean of the
converted coordinates. -/
def calculateCenter (tours : List TourItem) : Option MapCenter :=
  let validTours := validCoordFilter tours
  if validTours.length = 0 then none
  else
    let sumLng := (validTours.map fun t => convertKatecToWgs84 t.mapx).sum
    let sumLat := (validTours.map fun t => convertKatecToWgs84 t.mapy).sum
    some ⟨sumLng / validTours.length, sumLat / validTours.length⟩

/-- A listing item whose coordinate strings are non-numeric but truthy. -/
def nonNumericTour : TourItem :=
  ⟨"1", "12", "t", "", "abc", "abc"⟩

/-- A listing item with a fixed-point longitude and latitude. -/
def validTourSample : TourItem :=
  ⟨"2", "12", "s", "", "1269812345", "371234567"⟩

/-- C2: `convertKatecToWgs84` parses its input with `parseFloat` and never
throws (it is a total function); a failed parse (`NaN`) yields `0`; a parsed
value of absolute value at least 1000 is divided by 10,000,000; any other
parsed value is returned unchanged. -/
theorem thm_C2 (raw : String) :
    (jsParseFloat raw = none → convertKatecToWgs84 raw = 0) ∧
    (∀ v : ℚ, jsParseFloat raw = some v →
      convertKatecToWgs84 raw = if 1000 ≤ |v| then v / 10000000 else v) := by
  constructor
  · intro h
    simp [convertKatecToWgs84, h]
  · intro v h
    simp only [convertKatecToWgs84, h]
    by_cases h1 : (1000 : ℚ) ≤ |v|
    · rw [if_pos h1, if_pos]
      rcases le_abs.mp h1 with h2 | h2
      · exact Or.inl h2
      · exact Or.inr (by linarith)
    · rw [if_neg h1, if_neg]
      rintro (h2 | h2)
      · exact h1 (le_abs.mpr (Or.inl h2))
      · exact h1 (le_abs.mpr (Or.inr (by linarith)))

/-- C2 witness: the fixed-point longitude `"1269812345"` is parsed and scaled
down to decimal degrees. -/
theorem wit_C2 : convertKatecToWgs84 "1269812345" = 1269812345 / 10000000 := by
  have hv : jsParseFloat "1269812345" = some 1269812345 := by
    have hp : jsParseFloatParts "1269812345" = some (1269812345, 0) := by decide
    simp [jsParseFloat, hp, partsVal]
  have h := (thm_C2 "1269812345").2 1269812345 hv
  rwa [if_pos (by rw [abs_of_nonneg] <;> norm_num)] at h

/-- C6 counterexample: the claim states that entries with non-numeric raw
coordinate strings are excluded and an all-non-numeric collection yields
`null`; but `calculateCenter` only filters empty and `"0"` strings, so a
collection with one non-numeric entry is non-empty after the filter and the
result is the sentinel origin, not `null`. -/
theorem cex_C6 :
    jsParseFloat "abc" = none ∧
    calculateCenter [nonNumericTour] = some ⟨0, 0⟩ := by
  constructor
  · have hp : jsParseFloatParts "abc" = none := by decide
    simp [jsParseFloat, hp]
  · have h1 : validCoordFilter [nonNumericTour] = [nonNumericTour] := by decide
    have h3 : convertKatecToWgs84 "abc" = 0 := by
      have h2 : jsParseFloatParts "abc" = none := by decide
      simp [convertKatecToWgs84, jsParseFloat, h2]
    simp only [calculateCenter, h1]
    norm_num [nonNumericTour, h3]

/-- C6 amended: `calculateCenter` excludes exactly the entries whose raw
coordinate strings are empty or the literal `"0"` (non-numeric non-empty
strings are kept and convert to the sentinel `0`); the result is `null` iff
nothing survives the filter; otherwise it is the arithmetic mean of the
converted longitudes and latitudes of the surviving entries, and for a
single surviving item it equals that item's converted coordinate exactly. -/
theorem thm_C6 :
    (∀ tours : List TourItem,
      (calculateCenter tours = none ↔ validCoordFilter tours = [])) ∧
    (∀ tours : List TourItem, validCoordFilter tours ≠ [] →
      calculateCenter tours =
        some ⟨((validCoordFilter tours).map fun t => convertKatecToWgs84 t.mapx).sum
                / (validCoordFilter tours).length,
              ((validCoordFilter tours).map fun t => convertKatecToWgs84 t.mapy).sum
                / (validCoordFilter tours).length⟩) ∧
    (∀ t : TourItem, t.mapx ≠ "" → t.mapy ≠ "" → t.mapx ≠ "0" → t.mapy ≠ "0" →
      calculateCenter [t] = some ⟨convertKatecToWgs84 t.mapx, convertKatecToWgs84 t.mapy⟩) := by
  refine ⟨fun tours => ?_, fun tours h => ?_, fun t h1 h2 h3 h4 => ?_⟩
  · simp only [calculateCenter]
    split_ifs with h
    · simp [List.length_eq_zero.mp h]
    · have hne : validCoordFilter tours ≠ [] := fun he => h (by rw [he]; rfl)
      simp [hne]
  · have hlen : ¬(validCoordFilter tours).length = 0 :=
      fun hlen => h (List.length_eq_zero.mp hlen)
    simp only [calculateCenter]
    rw [if_neg hlen]
  · have hf : validCoordFilter [t] = [t] := by
      simp [validCoordFilter, h1, h2, h3, h4]
    simp [calculateCenter, hf]

/-- C6 witness for the amended claim: the centroid of a single valid item is
exactly that item's converted coordinate pair. -/
theorem wit_C6 :
    calculateCenter [validTourSample] =
      some ⟨convertKatecToWgs84 "1269812345", convertKatecToWgs84 "371234567"⟩ :=
  thm_C6.2.2 validTourSample (by decide) (by decide) (by decide) (by decide)

/-- One element of a regular expression of the restricted shape used by the
phone extraction code: a character class repeated between `lo` and `hi`
times, matched greedily. -/
structure Seg where
  cls : Char → Bool
  lo : Nat
  hi : Nat

/-- The repetition counts `hi, hi-1, …, lo` in the greedy preference order of
a JavaScript bounded quantifier. -/
def countsDesc (lo hi : Nat) : List Nat :=
  (List.range (hi + 1 - lo)).map fun i => hi - i

/-- Backtracking matcher for a sequence of `Seg`s anchored at the start of
`s`, following JavaScript semantics (each quantifier greedy, longest count
tried first).  Returns the list of per-segment matched character runs of the
first successful alternative, or `none`. -/
def matchSegsAt : List Seg → List Char → Option (List (List Char))
  | [], _ => some []
  | sg :: rest, s =>
    (countsDesc sg.lo sg.hi).findSome? fun k =>
      if k ≤ s.length ∧ (s.take k).all sg.cls then
        (matchSegsAt rest (s.drop k)).map fun gs => s.take k :: gs
      else none

/-- Leftmost-match search of a `Seg` sequence in `s`, returning the matched
substring, as JavaScript `String.prototype.match` does for the patterns in
question (whose capture group is the whole match). -/
def searchSegs (segs : List Seg) : List Char → Option (List Char)
  | [] => (matchSegsAt segs []).map List.flatten
  | s@(_ :: t) =>
    match matchSegsAt segs s with
    | some gs => some gs.flatten
    | none => searchSegs segs t

/-- The regex class `[-.\s]` of the phone patterns. -/
def isSepCh (c : Char) : Bool := c = '-' ∨ c = '.' ∨ isJsSpace c

/-- A digit segment with the given repetition bounds. -/
def dSeg (lo hi : Nat) : Seg := ⟨Char.isDigit, lo, hi⟩

/-- An optional separator segment, the regex `[-.\s]?`. -/
def sepSeg : Seg := ⟨isSepCh, 0, 1⟩

/-- Phone pattern 1 of `src/unnamed/part_005`:
`/(\d{2,3}[-.\s]?\d{3,4}[-.\s]?\d{4})/`. -/
def phonePattern1 : List Seg := [dSeg 2 3, sepSeg, dSeg 3 4, sepSeg, dSeg 4 4]

/-- Phone pattern 2: `/(\d{4}[-.\s]?\d{4})/` (service numbers). -/
def phonePattern2 : List Seg := [dSeg 4 4, sepSeg, dSeg 4 4]

/-- Phone pattern 3: `/(\(?\d{2,3}\)?[-.\s]?\d{3,4}[-.\s]?\d{4})/`. -/
def phonePattern3 : List Seg :=
  [⟨(· = '('), 0, 1⟩, dSeg 2 3, ⟨(· = ')'), 0, 1⟩, sepSeg, dSeg 3 4, sepSeg, dSeg 4 4]

/-- The extraction loop over the three phone patterns: first pattern with a
match wins (the `for … break` in `src/unnamed/part_005`). -/
def firstPhoneMatch (cand : String) : Option (List Char) :=
  [phonePattern1, phonePattern2, phonePattern3].findSome? fun p => searchSegs p cand.data

/-- The replacement `replace(/[.\s()]/g, …)` of the matched group, whose
callback deletes periods, spaces and parentheses and keeps every other
character of the class. -/
def stripPhonePunct (m : List Char) : List Char :=
  m.filter fun c => !(c = '.' ∨ c = ' ' ∨ c = '(' ∨ c = ')')

/-- The three digit groups of the re-hyphenation regex
`/(\d{2,3})(\d{3,4})(\d{4})/`. -/
def hyphenGroups : List Seg := [dSeg 2 3, dSeg 3 4, dSeg 4 4]

/-- The non-global replacement
`replace(/(\d{2,3})(\d{3,4})(\d{4})/, '$1-$2-$3')`: the leftmost match (if
any) is replaced by its groups joined with hyphens, the rest is kept. -/
def rehyphenate : List Char → List Char
  | [] => []
  | s@(c :: t) =>
    match matchSegsAt hyphenGroups s with
    | some (g1 :: g2 :: g3 :: _) =>
      g1 ++ '-' :: (g2 ++ '-' :: (g3 ++ s.drop (g1.length + g2.length + g3.length)))
    | _ => c :: rehyphenate t

/-- Embedding of the candidate-to-phone extraction of `src/unnamed/part_005`
(lines 489–535): try the three patterns in order and clean the first match;
otherwise keep only the digits and reformat digit counts of 10 (2-4-4) and
11 (3-4-4), keep other counts in 8–13 bare, and fall back to the trimmed
candidate for anything else. -/
def extractPhone (cand : String) : String :=
  match firstPhoneMatch cand with
  | some m => String.mk (rehyphenate (stripPhonePunct m))
  | none =>
    let ds := cand.data.filter Char.isDigit
    if 8 ≤ ds.length ∧ ds.length ≤ 13 then
      if ds.length = 10 then
        String.mk (ds.take 2 ++ '-' :: ((ds.drop 2).take 4 ++ '-' :: ds.drop 6))
      else if ds.length = 11 then
        String.mk (ds.take 3 ++ '-' :: ((ds.drop 3).take 4 ++ '-' :: ds.drop 7))
      else String.mk ds
    else jsTrim cand

/-- The six category-specific info-center fields of the intro record
(`detailIntro2` payload); an absent field is modelled as the empty string,
which is exactly what the JavaScript truthiness tests distinguish. -/
structure IntroRecord where
  infocenter : String
  infocenterculture : String
  infocenterleports : String
  infocenterlodging : String
  infocentershopping : String
  infocenterfood : String
deriving DecidableEq

/-- JavaScript `||` on strings: the left operand unless it is falsy. -/
def jsOr (a b : String) : String := if a ≠ "" then a else b

/-- The info-center candidate chain of `src/unnamed/part_005` (lines
476–482): `intro?.infocenter || intro?.infocenterculture || … ||
intro?.infocenterfood`, guarded by `if (infocenterField)`.  Note that the
chain is a fixed priority order and does not consult the record's category
code. -/
def introCandidate (i : IntroRecord) : Option String :=
  let v := jsOr i.infocenter (jsOr i.infocenterculture (jsOr i.infocenterleports
    (jsOr i.infocenterlodging (jsOr i.infocentershopping i.infocenterfood))))
  if v ≠ "" then some v else none

/-- The candidate chain lifted over a possibly missing intro record (the
`getDetailIntro` call may have failed, leaving `intro = null`). -/
def introCandidateOpt : Option IntroRecord → Option String
  | none => none
  | some i => introCandidate i

/-- Embedding of the phone merge of `src/unnamed/part_005` (lines 468–549):
the final value of `detail.tel`.  A present, non-blank `common.tel` is kept
as-is; otherwise a found info-center candidate is run through
`extractPhone`; otherwise `detail.tel` is left untouched. -/
def mergedTel (tel : String) (intro : Option IntroRecord) : String :=
  if tel ≠ "" ∧ jsTrim tel ≠ "" then tel
  else
    match introCandidateOpt intro with
    | some c => extractPhone c
    | none => tel

/-- The phone value the detail view exposes: `detail.tel` after the merge,
with the display-side blank check `detail.tel && detail.tel.trim() !== ""`
(`src/components/tour-detail/detail-info.tsx`) mapping a blank result to
"no phone" (`none`). -/
def reconciledPhone (tel : String) (intro : Option IntroRecord) : Option String :=
  let t := mergedTel tel intro
  if t ≠ "" ∧ jsTrim t ≠ "" then some t else none

/-- Modelled from the spec: the category-keyed info-center lookup that the
specification describes for `PlaceDetailPage` — a fixed table mapping each of
the six known category codes to one distinct info-center field name, an
absent category code or an absent (blank) field yielding no candidate.  This
is the specification's account of the lookup, stated here to be compared
with the fallback chain `introCandidate` the source actually implements. -/
def specPhoneCandidate (categoryCode : String) (intro : Option IntroRecord) : Option String :=
  match intro with
  | none => none
  | some i =>
    let field : Option String :=
      if categoryCode = "12" then some i.infocenter
      else if categoryCode = "14" then some i.infocenterculture
      else if categoryCode = "28" then some i.infocenterleports
      else if categoryCode = "32" then some i.infocenterlodging
      else if categoryCode = "38" then some i.infocentershopping
      else if categoryCode = "39" then some i.infocenterfood
      else none
    match field with
    | none => none
    | some v => if jsTrim v ≠ "" then some v else none

/-- An intro record whose only populated field is the info-center candidate
used by the two C4 examples (general case). -/
def introSample1 : IntroRecord := ⟨"문의: 1588-1234 (평일만)", "", "", "", "", ""⟩

/-- An intro record carrying an 11-digit bare candidate. -/
def introSample2 : IntroRecord := ⟨"01012345678", "", "", "", "", ""⟩

/-- An intro record with every info-center field blank. -/
def emptyIntro : IntroRecord := ⟨"", "", "", "", "", ""⟩

/-- An intro record whose only populated info-center field is the
restaurant-category one. -/
def introFoodOnly : IntroRecord := ⟨"", "", "", "", "", "02-123-4567"⟩

/-- C1: a present, non-blank `common.phone` is reconciled to itself
regardless of the intro record; a blank `common.phone` with no info-center
candidate reconciles to `null`. -/
theorem thm_C1 (tel : String) (intro : Option IntroRecord) :
    (jsTrim tel ≠ "" → reconciledPhone tel intro = some tel) ∧
    (jsTrim tel = "" → introCandidateOpt intro = none →
      reconciledPhone tel intro = none) := by
  constructor
  · intro h
    have h0 : tel ≠ "" := fun he => h (by rw [he]; rfl)
    simp [reconciledPhone, mergedTel, h0, h]
  · intro h hc
    have h0 : ¬(tel ≠ "" ∧ jsTrim tel ≠ "") := fun hx => hx.2 h
    simp [reconciledPhone, mergedTel, h0, hc, h]

/-- C1 witness: `"02-123-4567"` survives any intro content, and a blank
phone with an all-blank intro record reconciles to `null`. -/
theorem wit_C1 :
    reconciledPhone "02-123-4567" (some introSample1) = some "02-123-4567" ∧
    reconciledPhone "" (some emptyIntro) = none :=
  ⟨(thm_C1 "02-123-4567" (some introSample1)).1 (by decide),
   (thm_C1 "" (some emptyIntro)).2 (by decide) (by decide)⟩

/-- C4: the extraction tries the three phone patterns in order (first match
wins), strips periods, spaces and parentheses from the match and
re-hyphenates; with no pattern match the digits are kept and a count of 10
is formatted 2-4-4, a count of 11 is formatted 3-4-4, other counts in 8–13
stay bare, and any other count falls back to the trimmed candidate.  In
particular `"문의: 1588-1234 (평일만)"` yields `"1588-1234"` and
`"01012345678"` yields `"010-1234-5678"`. -/
theorem thm_C4 :
    mergedTel "" (some introSample1) = "1588-1234" ∧
    mergedTel "" (some introSample2) = "010-1234-5678" ∧
    (∀ cand m, firstPhoneMatch cand = some m →
      extractPhone cand = String.mk (rehyphenate (stripPhonePunct m))) ∧
    (∀ cand, firstPhoneMatch cand = none →
      extractPhone cand =
        (let ds := cand.data.filter Char.isDigit
         if ds.length = 10 then
           String.mk (ds.take 2 ++ '-' :: ((ds.drop 2).take 4 ++ '-' :: ds.drop 6))
         else if ds.length = 11 then
           String.mk (ds.take 3 ++ '-' :: ((ds.drop 3).take 4 ++ '-' :: ds.drop 7))
         else if 8 ≤ ds.length ∧ ds.length ≤ 13 then String.mk ds
         else jsTrim cand)) := by
  refine ⟨by decide, by decide, fun cand m h => by simp [extractPhone, h], fun cand h => ?_⟩
  simp only [extractPhone, h]
  by_cases h10 : (cand.data.filter Char.isDigit).length = 10
  · simp [h10]
  · by_cases h11 : (cand.data.filter Char.isDigit).length = 11
    · simp [h10, h11]
    · by_cases h813 : 8 ≤ (cand.data.filter Char.isDigit).length ∧
        (cand.data.filter Char.isDigit).length ≤ 13
      · simp [h10, h11, h813]
      · simp [h10, h11, h813]

/-- C4 witness: a candidate with no pattern match and no digits falls back
to the trimmed candidate verbatim. -/
theorem wit_C4 : extractPhone "서울 종로구" = "서울 종로구" := by
  have h := thm_C4.2.2.2 "서울 종로구" (by decide)
  exact h.trans (by decide)

/-- C7 counterexample: the claim says an info-center field of a different
category than the record's category code is never used; but for a record
with category code `"12"` (whose spec-side lookup yields no candidate, the
`infocenter` field being blank) the code's fallback chain picks the
restaurant field `infocenterfood` and reconciles the phone from it. -/
theorem cex_C7 :
    specPhoneCandidate "12" (some introFoodOnly) = none ∧
    introCandidateOpt (some introFoodOnly) = some "02-123-4567" ∧
    reconciledPhone "" (some introFoodOnly) = some "02-123-4567" :=
  ⟨by decide, by decide, by decide⟩

/-- C7 amended: when `common.phone` is blank, the candidate is the first
truthy field of the fixed priority chain `infocenter`, `infocenterculture`,
`infocenterleports`, `infocenterlodging`, `infocentershopping`,
`infocenterfood`, independent of the record's category code; if every field
is blank (or the intro record is missing) there is no candidate. -/
theorem thm_C7 (i : IntroRecord) :
    (i.infocenter ≠ "" → introCandidate i = some i.infocenter) ∧
    (i.infocenter = "" → i.infocenterculture ≠ "" →
      introCandidate i = some i.infocenterculture) ∧
    (i.infocenter = "" → i.infocenterculture = "" → i.infocenterleports ≠ "" →
      introCandidate i = some i.infocenterleports) ∧
    (i.infocenter = "" → i.infocenterculture = "" → i.infocenterleports = "" →
      i.infocenterlodging ≠ "" → introCandidate i = some i.infocenterlodging) ∧
    (i.infocenter = "" → i.infocenterculture = "" → i.infocenterleports = "" →
      i.infocenterlodging = "" → i.infocentershopping ≠ "" →
      introCandidate i = some i.infocentershopping) ∧
    (i.infocenter = "" → i.infocenterculture = "" → i.infocenterleports = "" →
      i.infocenterlodging = "" → i.infocentershopping = "" → i.infocenterfood ≠ "" →
      introCandidate i = some i.infocenterfood) ∧
    (i.infocenter = "" → i.infocenterculture = "" → i.infocenterleports = "" →
      i.infocenterlodging = "" → i.infocentershopping = "" → i.infocenterfood = "" →
      introCandidate i = none) := by
  unfold introCandidate jsOr
  refine ⟨?_, ?_, ?_, ?_, ?_, ?_, ?_⟩ <;> intros <;> simp_all

/-- C7 witness: the last link of the chain fires when all earlier fields are
blank. -/
theorem wit_C7 : introCandidate introFoodOnly = some "02-123-4567" :=
  (thm_C7 introFoodOnly).2.2.2.2.2.1 rfl rfl rfl rfl rfl (by decide)

/-- Case-insensitive test of a single ASCII letter, as under a regex `/i`
flag. -/
def ciIs (a c : Char) : Bool := asciiLower c = a

/-- A quote character, the regex class `["']`. -/
def isQuoteCh (c : Char) : Bool := c = '"' ∨ c.toNat = 39

/-- Anchored attempt of the regex `/href=["']([^"']+)["']/i` at the start of
`s`: the literal `href=` (case-insensitive), a quote, a maximal non-empty
run of non-quote characters, and a closing quote.  Greedy matching of
`[^"']+` makes the run maximal; backtracking cannot help because a shorter
run is followed by a non-quote character. -/
def tryHrefAt (s : List Char) : Option (List Char) :=
  match s with
  | c1 :: c2 :: c3 :: c4 :: c5 :: rest =>
    if ciIs 'h' c1 ∧ ciIs 'r' c2 ∧ ciIs 'e' c3 ∧ ciIs 'f' c4 ∧ c5 = '=' then
      match rest with
      | q :: r2 =>
        if isQuoteCh q then
          let content := r2.takeWhile fun c => !isQuoteCh c
          if content ≠ [] ∧ content.length < r2.length then some content else none
        else none
      | [] => none
    else none
  | _ => none

/-- Leftmost match of the `href` regex. -/
def findHrefMatch : List Char → Option (List Char)
  | [] => none
  | s@(_ :: t) =>
    match tryHrefAt s with
    | some c => some c
    | none => findHrefMatch t

/-- Anchored attempt of the regex `/<a[^>]*>([^<]+)<\/a>/i` at the start of
`s`.  Both starred runs are effectively deterministic (see `tryHrefAt`);
the closing tag `</a>` is matched case-insensitively. -/
def tryAnchorAt (s : List Char) : Option (List Char) :=
  match s with
  | lt :: a :: rest =>
    if lt = '<' ∧ ciIs 'a' a then
      let body := rest.takeWhile (· ≠ '>')
      match rest.drop body.length with
      | gt :: r2 =>
        if gt = '>' then
          let content := r2.takeWhile (· ≠ '<')
          match r2.drop content.length with
          | l2 :: sl :: a2 :: g2 :: _ =>
            if content ≠ [] ∧ l2 = '<' ∧ sl = '/' ∧ ciIs 'a' a2 ∧ g2 = '>' then
              some content
            else none
          | _ => none
        else none
      | [] => none
    else none
  | _ => none

/-- Leftmost match of the anchor-text regex. -/
def findAnchorMatch : List Char → Option (List Char)
  | [] => none
  | s@(_ :: t) =>
    match tryAnchorAt s with
    | some c => some c
    | none => findAnchorMatch t

/-- The anchored prefix test `/^https?:\/\//i`. -/
def startsWithHttpCi (s : List Char) : Bool :=
  match s with
  | c1 :: c2 :: c3 :: c4 :: rest =>
    ciIs 'h' c1 && ciIs 't' c2 && ciIs 't' c3 && ciIs 'p' c4 &&
      (match rest with
       | c5 :: r2 =>
         if ciIs 's' c5 then
           match r2 with
           | ':' :: '/' :: '/' :: _ => true
           | _ => false
         else
           match c5 :: r2 with
           | ':' :: '/' :: '/' :: _ => true
           | _ => false
       | [] => false)
  | _ => false

/-- Embedding of `extractUrlFromHtml` from
`src/components/tour-detail/detail-info.tsx`: first the `href` attribute
(trimmed), else trimmed anchor text when it looks like an http(s) URL, else
nothing. -/
def extractUrlFromHtml (html : String) : Option String :=
  match findHrefMatch html.data with
  | some c => some (jsTrim (String.mk c))
  | none =>
    match findAnchorMatch html.data with
    | some c =>
      let url := jsTrim (String.mk c)
      if startsWithHttpCi url.data then some url else none
    | none => none

/-- Model of `String.prototype.startsWith` (and of Lean's own
`String.startsWith`, stated over character lists so that it reduces inside
the kernel). -/
def strStartsWith (s p : String) : Bool := p.data.isPrefixOf s.data

/-- The sentinel list `invalidValues` of `normalizeHomepageUrl`, compared
against the lower-cased candidate (so the `"N/A"` entry is inert). -/
def invalidHomepageValues : List String :=
  ["없음", "N/A", "n/a", "-", "null", "undefined", ""]

/-- Modelled from the spec: the platform WHATWG `URL` constructor used for
validation inside `normalizeHomepageUrl`
(`src/components/tour-detail/detail-info.tsx`) is not part of the
repository; it is approximated here for the http(s) URLs the call sites
construct: well-formed iff the authority part (up to the first `/`, `?` or
`#`) is non-empty and free of whitespace and of characters forbidden in
hosts. -/
def urlCanParse (s : String) : Bool :=
  if strStartsWith s "http://" ∨ strStartsWith s "https://" then
    let rest := if strStartsWith s "http://" then s.data.drop 7 else s.data.drop 8
    let host := rest.takeWhile fun c => !(c = '/' ∨ c = '?' ∨ c = '#')
    host ≠ [] ∧ host.all fun c =>
      !(isJsSpace c ∨ c = '<' ∨ c = '>' ∨ c = '\\' ∨ c = '^' ∨ c = '|' ∨ c = '"')
  else false

/-- The candidate stage of `normalizeHomepageUrl`: `none` for a missing or
blank input, otherwise the trimmed string, run through the HTML extraction
when it contains both `<` and `>` (an extraction result that is falsy — the
empty string — is discarded, keeping the trimmed original). -/
def homepageCandidate (url : String) : Option String :=
  if url = "" ∨ jsTrim url = "" then none
  else
    let t0 := jsTrim url
    some (if t0.data.contains '<' ∧ t0.data.contains '>' then
            match extractUrlFromHtml t0 with
            | some u => if u ≠ "" then u else t0
            | none => t0
          else t0)

/-- Embedding of `normalizeHomepageUrl` from
`src/components/tour-detail/detail-info.tsx` (lines 185–247): candidate
stage, sentinel check, then URL validation — directly for strings already
carrying an http(s) scheme, else after prepending `https://`. -/
def normalizeHomepageUrl (url : String) : Option String :=
  match homepageCandidate url with
  | none => none
  | some t1 =>
    if jsToLower t1 ∈ invalidHomepageValues then none
    else if strStartsWith t1 "http://" ∨ strStartsWith t1 "https://" then
      if urlCanParse t1 then some t1 else none
    else if urlCanParse ("https://" ++ t1) then some ("https://" ++ t1) else none

/-- C5: homepage normalization.  The four example inputs behave as claimed,
and for every input whose candidate stage produces `t1`: a sentinel (under
ASCII lower-casing) yields `null`; a candidate already carrying an http(s)
scheme is returned iff it parses as a URL; any other (non-sentinel)
candidate gets `https://` prepended and is returned iff the result parses.
The function is total, so it never throws. -/
theorem thm_C5 :
    normalizeHomepageUrl "없음" = none ∧
    normalizeHomepageUrl "example.com" = some "https://example.com" ∧
    normalizeHomepageUrl "<a href=\"http://x.com\">x</a>" = some "http://x.com" ∧
    normalizeHomepageUrl "https://y.com" = some "https://y.com" ∧
    (∀ url t1, homepageCandidate url = some t1 →
      (jsToLower t1 ∈ invalidHomepageValues → normalizeHomepageUrl url = none) ∧
      (jsToLower t1 ∉ invalidHomepageValues →
        (strStartsWith t1 "http://" ∨ strStartsWith t1 "https://") →
        normalizeHomepageUrl url = if urlCanParse t1 then some t1 else none) ∧
      (jsToLower t1 ∉ invalidHomepageValues →
        ¬(strStartsWith t1 "http://" ∨ strStartsWith t1 "https://") →
        normalizeHomepageUrl url =
          if urlCanParse ("https://" ++ t1) then some ("https://" ++ t1) else none)) := by
  refine ⟨by decide, by decide, by decide, by decide, fun url t1 h => ⟨?_, ?_, ?_⟩⟩
  · intro hmem
    simp [normalizeHomepageUrl, h, hmem]
  · intro hmem hsw
    simp [normalizeHomepageUrl, h, hmem, hsw]
  · intro hmem hsw
    simp [normalizeHomepageUrl, h, hmem, hsw]

/-- C5 witness: the sentinel `"-"` normalizes to `null` through the general
sentinel clause. -/
theorem wit_C5 : normalizeHomepageUrl "-" = none :=
  ((thm_C5.2.2.2.2 "-" "-" (by decide)).1 (by decide))

/-- The two sort options of the listing (`sortBy` prop of
`TourListInfinite`). -/
inductive SortOption
  | latest
  | byName
deriving DecidableEq

/-- The change-detection key of the reset effect of `TourListInfinite`
(lines 133–138): the ordered `contentid` sequence of the incoming first
page, the total count and the sort option.  The component serialises this
triple to JSON (injective on it), so key equality is modelled as equality of
the triple. -/
structure ResetKey where
  ids : List String
  totalCount : Nat
  sortBy : SortOption
deriving DecidableEq

/-- The client-side accumulator state of `TourListInfinite`: the accumulated
items, the in-flight guard flag, the has-more flag, the last fetched page
number, and the previous reset key (`prevInitialToursRef`, `none` before the
first post-mount reset). -/
structure AccState where
  tours : List TourItem
  isLoading : Bool
  hasMore : Bool
  currentPage : Nat
  prevKey : Option ResetKey
deriving DecidableEq

/-- The reset key of an incoming first page. -/
def resetKeyOf (initialTours : List TourItem) (totalCount : Nat)
    (sortBy : SortOption) : ResetKey :=
  ⟨initialTours.map (·.contentid), totalCount, sortBy⟩

/-- Mount-time initialization of `TourListInfinite` (lines 116–121):
`tours = initialTours`, `hasMore = initialTours.length < totalCount`,
`currentPage = 1`, no load in flight, no previous reset key. -/
def initializeAcc (initialTours : List TourItem) (totalCount : Nat) : AccState :=
  { tours := initialTours
    isLoading := false
    hasMore := initialTours.length < totalCount
    currentPage := 1
    prevKey := none }

/-- The reset effect of `TourListInfinite` (lines 126–147): when the key of
the incoming first page differs from the stored one, the state is
re-initialized from the incoming page and the key is stored; otherwise
nothing is mutated. -/
def resetAcc (s : AccState) (initialTours : List TourItem) (totalCount : Nat)
    (sortBy : SortOption) : AccState :=
  let key := resetKeyOf initialTours totalCount sortBy
  if s.prevKey = some key then s
  else
    { s with
        tours := initialTours
        currentPage := 1
        hasMore := initialTours.length < totalCount
        prevKey := some key }

/-- The client-side multi-category filter of `loadMore` (lines 192–198):
applied to the fetched page only when more than one category is selected. -/
def categoryFilter (contentTypeIds : List String) (items : List TourItem) : List TourItem :=
  if 1 < contentTypeIds.length then
    items.filter fun t => t.contenttypeid ∈ contentTypeIds
  else items

/-- The upstream has-more signal computed by the server actions of
`src/unnamed/part_000`: a fetch reports more-available iff it returned
exactly `numOfRows` items. -/
def upstreamHasMore (fetchedCount numOfRows : Nat) : Bool :=
  fetchedCount = numOfRows

/-- The success path of `loadMore` (lines 152–214), as a step parameterized
by the fetched raw page and the upstream has-more flag of the response; `le`
is the active sort comparator (ECMAScript `Array.prototype.sort` is stable,
modelled by `List.mergeSort`).  The guard returns the state unchanged when a
load is in flight or `hasMore` is false; otherwise the page is filtered,
sorted among itself, appended, and the page cursor and `hasMore` updated. -/
def loadMoreSuccess (le : TourItem → TourItem → Bool) (contentTypeIds : List String)
    (s : AccState) (pageItems : List TourItem) (resultHasMore : Bool) : AccState :=
  if s.isLoading ∨ ¬s.hasMore then s
  else
    let newItems := (categoryFilter contentTypeIds pageItems).mergeSort le
    { s with
        tours := s.tours ++ newItems
        currentPage := s.currentPage + 1
        hasMore := resultHasMore ∧ newItems.length ≠ 0
        isLoading := false }

/-- `loadMore` composed with the server action: the page of 20 requested
rows reports more-available iff all 20 came back. -/
def loadMoreViaAction (le : TourItem → TourItem → Bool) (contentTypeIds : List String)
    (s : AccState) (pageItems : List TourItem) : AccState :=
  loadMoreSuccess le contentTypeIds s pageItems (upstreamHasMore pageItems.length 20)

/-- The failure path of `loadMore` (lines 215–220): the thrown error is
caught and only logged, and the `finally` block clears the loading flag; no
other state is touched. -/
def loadMoreFailure (s : AccState) : AccState :=
  if s.isLoading ∨ ¬s.hasMore then s
  else { s with isLoading := false }

/-- A small page of seven distinct items, used as a concrete short first
page. -/
def sevenTours : List TourItem :=
  (List.range 7).map fun i => ⟨toString i, "12", toString i, "", "", ""⟩

/-- C3 counterexample: the claimed invariant says `hasMore` is true only if
the most recently fetched page returned exactly the requested page size
(20); but `initialize` sets `hasMore = items.length < totalCount`, so a
short first page of 7 items with a total count of 30 leaves `hasMore` true
— the code never consults the page size there. -/
theorem cex_C3 :
    (initializeAcc sevenTours 30).hasMore = true ∧ sevenTours.length = 7 := by
  constructor
  · decide
  · decide

/-- C3 amended: after `initialize` (and after a mutating `reset`) `hasMore`
is `items.length < totalCount`, with no page-size condition; after a
successful guarded `loadMore`, `hasMore` is true iff the raw fetched page
had exactly 20 items (the upstream signal of the server actions) and the
category-filtered page was non-empty — the total count is not consulted
there. -/
theorem thm_C3 :
    (∀ items tc, (initializeAcc items tc).hasMore = decide (items.length < tc)) ∧
    (∀ s items tc so, s.prevKey ≠ some (resetKeyOf items tc so) →
      (resetAcc s items tc so).hasMore = decide (items.length < tc)) ∧
    (∀ le ct (s : AccState) page, s.isLoading = false → s.hasMore = true →
      (loadMoreViaAction le ct s page).hasMore =
        (decide (page.length = 20) && decide (categoryFilter ct page ≠ []))) := by
  refine ⟨fun items tc => rfl, fun s items tc so h => ?_, fun le ct s page h1 h2 => ?_⟩
  · simp [resetAcc, h]
  · have hg : ¬(s.isLoading ∨ ¬s.hasMore) := by simp [h1, h2]
    have hlen : ((categoryFilter ct page).mergeSort le).length = (categoryFilter ct page).length :=
      (List.mergeSort_perm (categoryFilter ct page) le).length_eq
    simp only [loadMoreViaAction, loadMoreSuccess, upstreamHasMore, if_neg hg]
    simp [hlen, List.length_eq_zero, decide_eq_true_eq]

/-- C3 witness for the amended claim: a guarded `loadMore` consuming a
two-item unfiltered page on a fresh one-item accumulator reports
exhaustion, the raw page being shorter than 20. -/
theorem wit_C3 :
    (loadMoreViaAction (fun _ _ => true) [] (initializeAcc [nonNumericTour] 5)
        [validTourSample, nonNumericTour]).hasMore = false := by
  have h := thm_C3.2.2 (fun _ _ => true) [] (initializeAcc [nonNumericTour] 5)
    [validTourSample, nonNumericTour] rfl (by decide)
  rw [h]
  decide

/-- C8: a guarded `loadMore` is a frame operation on the accumulated items —
every previously accumulated item stays unchanged in its position (the new
list restricted to the old length is the old list), and what is appended
after them is a permutation of the category-filtered fetched page, sorted
with respect to the active comparator among itself only. -/
theorem thm_C8 (le : TourItem → TourItem → Bool) (ct : List String) (s : AccState)
    (page : List TourItem) (rhm : Bool)
    (h1 : s.isLoading = false) (h2 : s.hasMore = true)
    (htrans : ∀ a b c, le a b = true → le b c = true → le a c = true)
    (htotal : ∀ a b, (le a b || le b a) = true) :
    ((loadMoreSuccess le ct s page rhm).tours.take s.tours.length = s.tours) ∧
    ((loadMoreSuccess le ct s page rhm).tours.drop s.tours.length).Perm
      (categoryFilter ct page) ∧
    List.Pairwise (fun a b => le a b = true)
      ((loadMoreSuccess le ct s page rhm).tours.drop s.tours.length) := by
  have hg : ¬(s.isLoading ∨ ¬s.hasMore) := by simp [h1, h2]
  simp only [loadMoreSuccess, if_neg hg]
  refine ⟨List.take_left _ _, ?_, ?_⟩
  · rw [List.drop_left]
    exact List.mergeSort_perm _ le
  · rw [List.drop_left]
    exact List.sorted_mergeSort htrans htotal _

/-- C8 witness: a concrete guarded `loadMore` on a one-item accumulator with
the trivial total comparator. -/
theorem wit_C8 :
    ((loadMoreSuccess (fun _ _ => true) [] (initializeAcc [nonNumericTour] 5)
        [validTourSample] true).tours.take 1 = [nonNumericTour]) ∧
    ((loadMoreSuccess (fun _ _ => true) [] (initializeAcc [nonNumericTour] 5)
        [validTourSample] true).tours.drop 1).Perm [validTourSample] ∧
    List.Pairwise (fun a b => (fun (_ _ : TourItem) => true) a b = true)
      ((loadMoreSuccess (fun _ _ => true) [] (initializeAcc [nonNumericTour] 5)
          [validTourSample] true).tours.drop 1) :=
  thm_C8 (fun _ _ => true) [] (initializeAcc [nonNumericTour] 5) [validTourSample] true
    rfl (by decide) (fun _ _ _ _ _ => rfl) (fun _ _ => rfl)

/-- C9: a second `reset` whose incoming first page has the same ordered
`contentid` sequence, the same total count and the same sort option as the
previous reset mutates nothing — the whole state, in particular items, page
and has-more, is unchanged. -/
theorem thm_C9 (s : AccState) (t1 t2 : List TourItem) (tc : Nat) (so : SortOption)
    (hids : t2.map (·.contentid) = t1.map (·.contentid)) :
    resetAcc (resetAcc s t1 tc so) t2 tc so = resetAcc s t1 tc so := by
  have hkey : resetKeyOf t2 tc so = resetKeyOf t1 tc so := by
    simp [resetKeyOf, hids]
  have hprev : (resetAcc s t1 tc so).prevKey = some (resetKeyOf t1 tc so) := by
    by_cases h : s.prevKey = some (resetKeyOf t1 tc so)
    · simp [resetAcc, h]
    · simp [resetAcc, h]
  show resetAcc (resetAcc s t1 tc so) t2 tc so = resetAcc s t1 tc so
  rw [resetAcc, hkey]
  simp [hprev]

/-- C9 witness: resetting twice with an identically-identified page (the
second carrying a different title under the same identifiers) leaves the
state of the first reset untouched. -/
theorem wit_C9 :
    resetAcc (resetAcc (initializeAcc [] 0) [validTourSample] 9 SortOption.byName)
        [⟨"2", "39", "other", "", "", ""⟩] 9 SortOption.byName =
      resetAcc (initializeAcc [] 0) [validTourSample] 9 SortOption.byName :=
  thm_C9 (initializeAcc [] 0) [validTourSample] [⟨"2", "39", "other", "", "", ""⟩]
    9 SortOption.byName (by decide)

/-- C10: on fetch failure inside a guarded `loadMore` the error is absorbed
(the step is total and returns a state), the loading flag ends cleared, and
items, page cursor and has-more keep exactly their prior values. -/
theorem thm_C10 (s : AccState) (h1 : s.isLoading = false) (h2 : s.hasMore = true) :
    (loadMoreFailure s).tours = s.tours ∧
    (loadMoreFailure s).currentPage = s.currentPage ∧
    (loadMoreFailure s).hasMore = s.hasMore ∧
    (loadMoreFailure s).isLoading = false := by
  simp [loadMoreFailure, h1, h2]

/-- C10 witness: a concrete failed fetch on a fresh accumulator. -/
theorem wit_C10 :
    (loadMoreFailure (initializeAcc [nonNumericTour] 5)).tours = [nonNumericTour] ∧
    (loadMoreFailure (initializeAcc [nonNumericTour] 5)).currentPage = 1 ∧
    (loadMoreFailure (initializeAcc [nonNumericTour] 5)).hasMore = true ∧
    (loadMoreFailure (initializeAcc [nonNumericTour] 5)).isLoading = false :=
  thm_C10 (initializeAcc [nonNumericTour] 5) rfl (by decide)

end Thursday
